import Mathlib

/-!
Shallow embedding of `cirq-core/cirq/ops/cxswap_czswap.py`.

The file defines two stateless two-qubit gate classes, `CZSWAPGate` and
`CXSWAPGate`.  Each class has methods `_num_qubits_`, `_unitary_`,
`_has_unitary_`, `_decompose_` (a Python generator), `_circuit_diagram_info_`,
`_value_equality_values_` and `__repr__`.  `CZSWAPGate` additionally subclasses
`InterchangeableQubitsGate`; `CXSWAPGate` does not.

Instances of either class carry no fields; to keep Python object identity
observable in the model (equality must not depend on it), each instance is a
structure holding only an identity tag that none of the methods inspect.
Python generator semantics for `_decompose_` is embedded as a small-step
system: calling the generator function returns a `GenState` without running
the body; each `next` request either yields a value, finishes, or raises the
unpack error `a, b = qubits` produces when the argument is not a two-element
sequence.
-/

/-- Instances of the Python class `CZSWAPGate`; the class declares no fields,
so an instance is characterized by its object identity alone. -/
structure CZSWAPGate where
  objId : Nat
deriving DecidableEq

/-- Instances of the Python class `CXSWAPGate`; the class declares no fields,
so an instance is characterized by its object identity alone. -/
structure CXSWAPGate where
  objId : Nat
deriving DecidableEq

/-- Embeds `CZSWAPGate._num_qubits_` (line 47): `return 2`. -/
def CZSWAPGate.num_qubits_ (self : CZSWAPGate) : Nat := 2

/-- Embeds `CXSWAPGate._num_qubits_` (line 104): `return 2`. -/
def CXSWAPGate.num_qubits_ (self : CXSWAPGate) : Nat := 2

/-- Embeds `CZSWAPGate._unitary_` (lines 50-61): returns the constant integer
array `[[1,0,0,0],[0,0,1,0],[0,1,0,0],[0,0,0,-1]]`, ignoring `self`. -/
def CZSWAPGate.unitary_ (self : CZSWAPGate) : Option (Matrix (Fin 4) (Fin 4) ℤ) :=
  some !![1, 0, 0, 0; 0, 0, 1, 0; 0, 1, 0, 0; 0, 0, 0, -1]

/-- Embeds `CXSWAPGate._unitary_` (lines 107-118): returns the constant integer
array `[[1,0,0,0],[0,0,1,0],[0,0,0,1],[0,1,0,0]]`, ignoring `self`. -/
def CXSWAPGate.unitary_ (self : CXSWAPGate) : Option (Matrix (Fin 4) (Fin 4) ℤ) :=
  some !![1, 0, 0, 0; 0, 0, 1, 0; 0, 0, 0, 1; 0, 1, 0, 0]

/-- Embeds `CZSWAPGate._has_unitary_` (lines 63-64): `return True`. -/
def CZSWAPGate.has_unitary_ (self : CZSWAPGate) : Bool := true

/-- Embeds `CXSWAPGate._has_unitary_` (lines 120-121): `return True`. -/
def CXSWAPGate.has_unitary_ (self : CXSWAPGate) : Bool := true

/-- Embeds `CZSWAPGate._value_equality_values_` (lines 74-75): `return ()`. -/
def CZSWAPGate.value_equality_values_ (self : CZSWAPGate) : Unit := ()

/-- Embeds `CXSWAPGate._value_equality_values_` (lines 131-132): `return ()`. -/
def CXSWAPGate.value_equality_values_ (self : CXSWAPGate) : Unit := ()

/-- Embeds `CZSWAPGate.__repr__` (lines 77-78). -/
def CZSWAPGate.repr_ (self : CZSWAPGate) : String := "cirq.CZSWAPGate()"

/-- Embeds `CXSWAPGate.__repr__` (lines 134-135). -/
def CXSWAPGate.repr_ (self : CXSWAPGate) : String := "cirq.CXSWAPGate()"

/-- Embeds `CZSWAPGate._circuit_diagram_info_` (lines 71-72). -/
def CZSWAPGate.circuit_diagram_info_ (self : CZSWAPGate) : String × String :=
  ("CZSWAPGate", "CZSWAPGate")

/-- Embeds `CXSWAPGate._circuit_diagram_info_` (lines 128-129). -/
def CXSWAPGate.circuit_diagram_info_ (self : CXSWAPGate) : String × String :=
  ("CXSWAPGate", "CXSWAPGate")

/-- Sub-operations a decomposition can emit: the external constructors
`cirq.SWAP`, `cirq.CZ`, `cirq.CNOT` applied to two qubit handles, in order. -/
inductive Op (Q : Type)
  | SWAP (a b : Q)
  | CZ (a b : Q)
  | CNOT (a b : Q)
deriving DecidableEq

/-- Error raised by the tuple unpack `a, b = qubits` when `qubits` does not
hold exactly two elements (Python raises `ValueError`). -/
inductive DecomposeError
  | unpackMismatch
deriving DecidableEq

/-- State of the Python generator produced by calling `_decompose_`:
the body has not started, has yielded the first operation, or is exhausted.
The unpack `a, b = qubits` happens on the first `next` request, before any
yield. -/
inductive GenState (Q : Type)
  | start (qubits : List Q)
  | afterFirst (a b : Q)
  | finished
deriving DecidableEq

/-- Embeds the call `CZSWAPGate._decompose_(self, qubits)` (lines 66-69).
Calling a Python generator function runs none of its body; it returns a
generator object holding the arguments. -/
def CZSWAPGate.decompose_ {Q : Type} (self : CZSWAPGate) (qubits : List Q) : GenState Q :=
  GenState.start qubits

/-- Embeds the call `CXSWAPGate._decompose_(self, qubits)` (lines 123-126),
likewise returning an unstarted generator. -/
def CXSWAPGate.decompose_ {Q : Type} (self : CXSWAPGate) (qubits : List Q) : GenState Q :=
  GenState.start qubits

/-- One `next` request on the `CZSWAPGate._decompose_` generator (lines 66-69):
the first request unpacks `a, b = qubits` (raising on any other length) and
yields `cirq.SWAP(a, b)`; the second yields `cirq.CZ(a, b)`; then it stops. -/
def CZSWAPGate.decomposeNext {Q : Type} :
    GenState Q → Except DecomposeError (Option (Op Q) × GenState Q)
  | GenState.start qs =>
    match qs with
    | [a, b] => Except.ok (some (Op.SWAP a b), GenState.afterFirst a b)
    | _ => Except.error DecomposeError.unpackMismatch
  | GenState.afterFirst a b => Except.ok (some (Op.CZ a b), GenState.finished)
  | GenState.finished => Except.ok (none, GenState.finished)

/-- One `next` request on the `CXSWAPGate._decompose_` generator (lines
123-126): as for the CZ variant but the second yield is `cirq.CNOT(a, b)`. -/
def CXSWAPGate.decomposeNext {Q : Type} :
    GenState Q → Except DecomposeError (Option (Op Q) × GenState Q)
  | GenState.start qs =>
    match qs with
    | [a, b] => Except.ok (some (Op.SWAP a b), GenState.afterFirst a b)
    | _ => Except.error DecomposeError.unpackMismatch
  | GenState.afterFirst a b => Except.ok (some (Op.CNOT a b), GenState.finished)
  | GenState.finished => Except.ok (none, GenState.finished)

/-- Exhausts a generator, collecting the yielded operations in order, with a
fuel bound on the number of `next` requests; an error aborts the run with no
list produced, matching a consumer such as `list(gate._decompose_(qubits))`. -/
def genRun {Q : Type}
    (next : GenState Q → Except DecomposeError (Option (Op Q) × GenState Q)) :
    Nat → GenState Q → Except DecomposeError (List (Op Q))
  | 0, _ => Except.ok []
  | Nat.succ n, s =>
    match next s with
    | Except.error e => Except.error e
    | Except.ok (none, _) => Except.ok []
    | Except.ok (some op, s2) =>
      match genRun next n s2 with
      | Except.error e => Except.error e
      | Except.ok ops => Except.ok (op :: ops)

/-- Standard basis vector of the two-qubit computational basis
|00⟩, |01⟩, |10⟩, |11⟩ in the row/column ordering the spec fixes. -/
def basisVec (i : Fin 4) : Fin 4 → ℤ :=
  fun j => if j = i then 1 else 0

/-- Modelled from the spec: the external `SWAP(qubitA, qubitB)` constructor of
§6 (not under src/); its unitary exchanges the middle two basis states
|01⟩ and |10⟩. -/
def SWAP_matrix : Matrix (Fin 4) (Fin 4) ℤ :=
  !![1, 0, 0, 0; 0, 0, 1, 0; 0, 1, 0, 0; 0, 0, 0, 1]

/-- Modelled from the spec: the external controlled-phase-flip constructor
`CZ(qubitA, qubitB)` of §6 (not under src/); its unitary negates |11⟩. -/
def CZ_matrix : Matrix (Fin 4) (Fin 4) ℤ :=
  !![1, 0, 0, 0; 0, 1, 0, 0; 0, 0, 1, 0; 0, 0, 0, -1]

/-- Modelled from the spec: the external controlled-bit-flip constructor
`CNOT(control, target)` of §6 (not under src/), control being the first
qubit; its unitary exchanges |10⟩ and |11⟩. -/
def CNOT_matrix : Matrix (Fin 4) (Fin 4) ℤ :=
  !![1, 0, 0, 0; 0, 1, 0, 0; 0, 0, 0, 1; 0, 0, 1, 0]

/-- Variant tags for the two gate classes, used to build operations. -/
inductive GateVariant
  | czswap
  | cxswap
deriving DecidableEq

/-- Embeds the class declarations (lines 25 and 82): `CZSWAPGate` subclasses
`gate_features.InterchangeableQubitsGate`, `CXSWAPGate` does not. -/
def interchangeableQubits : GateVariant → Bool
  | GateVariant.czswap => true
  | GateVariant.cxswap => false

/-- An operation built by applying a gate of one of the two variants to an
ordered sequence of qubit handles. -/
structure Operation (Q : Type) where
  variant : GateVariant
  qubits : List Q

/-- Modelled from the spec: gate-operation equality of the surrounding
framework (not under src/).  Per §4.1 and the glossary entry for the
interchangeable-qubits capability, two operations are equal iff their gates
are equal and their qubit sequences agree, where a gate advertising
interchangeable qubits compares its qubit sequence as an unordered multiset
and any other gate compares it in order. -/
def operationEq {Q : Type} [DecidableEq Q] (o1 o2 : Operation Q) : Bool :=
  decide (o1.variant = o2.variant) &&
    (if interchangeableQubits o1.variant then
      decide ((o1.qubits : Multiset Q) = (o2.qubits : Multiset Q))
    else
      decide (o1.qubits = o2.qubits))

/-- Values a gate instance can be compared against: an instance of either
class, or an arbitrary non-gate value. -/
inductive PyObject (α : Type)
  | czswapGate (g : CZSWAPGate)
  | cxswapGate (g : CXSWAPGate)
  | nonGate (a : α)

/-- Modelled from the spec: the `value_equality` decorator applied to both
classes (lines 24 and 81; its machinery is not under src/).  Per §3 and §9,
equality holds iff the two values are instances of the same decorated class
and their `_value_equality_values_` keys agree; comparison against any other
value returns false rather than raising. -/
def valueEq {α : Type} : PyObject α → PyObject α → Bool
  | PyObject.czswapGate g, PyObject.czswapGate h =>
    decide (CZSWAPGate.value_equality_values_ g = CZSWAPGate.value_equality_values_ h)
  | PyObject.cxswapGate g, PyObject.cxswapGate h =>
    decide (CXSWAPGate.value_equality_values_ g = CXSWAPGate.value_equality_values_ h)
  | _, _ => false

/-- Modelled from the spec: evaluating a canonical constructor-call string
with the surrounding framework's constructors (§8 repr round-trip; the
evaluator is not under src/).  The two canonical strings construct a fresh
instance of the corresponding class; other strings are not handled. -/
def evalConstructorString {α : Type} (s : String) : Option (PyObject α) :=
  if s = "cirq.CZSWAPGate()" then some (PyObject.czswapGate ⟨0⟩)
  else if s = "cirq.CXSWAPGate()" then some (PyObject.cxswapGate ⟨0⟩)
  else none

/-- Claim C1: for each of the four two-qubit computational basis vectors, the
matrix returned by `CZSWAPGate._unitary_` applied to that vector equals the
result of applying SWAP and then CZ to the same vector up to a global scalar
phase of magnitude 1, and the matrix returned by `CXSWAPGate._unitary_`
likewise matches applying SWAP and then CNOT (control first, target second).
The phase is 1 for both variants. -/
theorem unitary_matches_swap_then_target (g : CZSWAPGate) (g2 : CXSWAPGate) :
    (∃ c : ℤ, c * c = 1 ∧ ∀ i : Fin 4,
      ((CZSWAPGate.unitary_ g).getD 0).mulVec (basisVec i) =
        c • CZ_matrix.mulVec (SWAP_matrix.mulVec (basisVec i))) ∧
    (∃ c : ℤ, c * c = 1 ∧ ∀ i : Fin 4,
      ((CXSWAPGate.unitary_ g2).getD 0).mulVec (basisVec i) =
        c • CNOT_matrix.mulVec (SWAP_matrix.mulVec (basisVec i))) := by
  constructor
  · refine ⟨1, by norm_num, ?_⟩
    simp only [CZSWAPGate.unitary_, Option.getD_some]
    decide
  · refine ⟨1, by norm_num, ?_⟩
    simp only [CXSWAPGate.unitary_, Option.getD_some]
    decide

/-- Claim C2: for every instance of either variant, `_unitary_` returns a
matrix (never none), the matrix is exactly the variant's specified constant
4×4 matrix with entries in 0, 1, -1 — independent of instance state or
qubit identity — and two calls (here: calls on any two instances) return
element-wise identical matrices. -/
theorem unitary_constant_and_exact (g1 g2 : CZSWAPGate) (h1 h2 : CXSWAPGate) :
    CZSWAPGate.unitary_ g1 = some !![1, 0, 0, 0; 0, 0, 1, 0; 0, 1, 0, 0; 0, 0, 0, -1] ∧
    CXSWAPGate.unitary_ h1 = some !![1, 0, 0, 0; 0, 0, 1, 0; 0, 0, 0, 1; 0, 1, 0, 0] ∧
    CZSWAPGate.unitary_ g1 = CZSWAPGate.unitary_ g2 ∧
    CXSWAPGate.unitary_ h1 = CXSWAPGate.unitary_ h2 ∧
    (∀ i j : Fin 4, (CZSWAPGate.unitary_ g1).getD 0 i j = 0 ∨
      (CZSWAPGate.unitary_ g1).getD 0 i j = 1 ∨ (CZSWAPGate.unitary_ g1).getD 0 i j = -1) ∧
    (∀ i j : Fin 4, (CXSWAPGate.unitary_ h1).getD 0 i j = 0 ∨
      (CXSWAPGate.unitary_ h1).getD 0 i j = 1 ∨ (CXSWAPGate.unitary_ h1).getD 0 i j = -1) := by
  refine ⟨rfl, rfl, rfl, rfl, ?_, ?_⟩
  · simp only [CZSWAPGate.unitary_, Option.getD_some]
    decide
  · simp only [CXSWAPGate.unitary_, Option.getD_some]
    decide

/-- Claim C3: for every pair of qubit handles, running the generator returned
by `decompose(q0, q1)` to exhaustion yields exactly the two-element sequence
SWAP(q0,q1) then CZ(q0,q1) for the CZ variant, and SWAP(q0,q1) then
CNOT(q0,q1) for the CX variant, referencing exactly the supplied qubits in
the supplied order. -/
theorem decompose_yields_swap_then_target {Q : Type} (g : CZSWAPGate) (g2 : CXSWAPGate)
    (q0 q1 : Q) :
    genRun CZSWAPGate.decomposeNext 3 (CZSWAPGate.decompose_ g [q0, q1]) =
      Except.ok [Op.SWAP q0 q1, Op.CZ q0 q1] ∧
    genRun CXSWAPGate.decomposeNext 3 (CXSWAPGate.decompose_ g2 [q0, q1]) =
      Except.ok [Op.SWAP q0 q1, Op.CNOT q0 q1] :=
  ⟨rfl, rfl⟩

/-- Claim C8: for every instance of either variant, the qubit-count query
returns exactly 2. -/
theorem num_qubits_is_two (g : CZSWAPGate) (g2 : CXSWAPGate) :
    CZSWAPGate.num_qubits_ g = 2 ∧ CXSWAPGate.num_qubits_ g2 = 2 :=
  ⟨rfl, rfl⟩

/-- Claim C4: for every pair of distinct qubit handles, an operation built
from the CZ variant on (q0, q1) equals the operation built on (q1, q0) and
the CZ variant advertises interchangeable qubits; for the CX variant the
swapped operation is not equal and interchangeability is not advertised. -/
theorem interchangeability_czswap_only {Q : Type} [DecidableEq Q] (q0 q1 : Q)
    (h : q0 ≠ q1) :
    operationEq ⟨GateVariant.czswap, [q0, q1]⟩ ⟨GateVariant.czswap, [q1, q0]⟩ = true ∧
    interchangeableQubits GateVariant.czswap = true ∧
    operationEq ⟨GateVariant.cxswap, [q0, q1]⟩ ⟨GateVariant.cxswap, [q1, q0]⟩ = false ∧
    interchangeableQubits GateVariant.cxswap = false := by
  refine ⟨?_, rfl, ?_, rfl⟩
  · simp only [operationEq, interchangeableQubits, Bool.and_eq_true, decide_eq_true_eq,
      if_true, Multiset.coe_eq_coe]
    exact ⟨trivial, List.Perm.swap q1 q0 []⟩
  · simp [operationEq, interchangeableQubits, h]

/-- Claim C4 witness at the concrete distinct qubits 0 and 1. -/
theorem interchangeability_czswap_only_witness :
    (0 : ℕ) ≠ 1 ∧
    (operationEq ⟨GateVariant.czswap, [0, 1]⟩ ⟨GateVariant.czswap, [(1 : ℕ), 0]⟩ = true ∧
      interchangeableQubits GateVariant.czswap = true ∧
      operationEq ⟨GateVariant.cxswap, [0, 1]⟩ ⟨GateVariant.cxswap, [(1 : ℕ), 0]⟩ = false ∧
      interchangeableQubits GateVariant.cxswap = false) :=
  ⟨by decide, interchangeability_czswap_only 0 1 (by decide)⟩

/-- Claim C5: any two instances of the same variant are equal, an instance of
the CZ variant and an instance of the CX variant are never equal, and the
result never depends on the instances' object identities. -/
theorem value_equality_by_variant {α : Type} (g1 g2 : CZSWAPGate) (h1 h2 : CXSWAPGate) :
    valueEq (PyObject.czswapGate g1) (PyObject.czswapGate g2 : PyObject α) = true ∧
    valueEq (PyObject.cxswapGate h1) (PyObject.cxswapGate h2 : PyObject α) = true ∧
    valueEq (PyObject.czswapGate g1) (PyObject.cxswapGate h1 : PyObject α) = false ∧
    valueEq (PyObject.cxswapGate h1) (PyObject.czswapGate g1 : PyObject α) = false :=
  ⟨rfl, rfl, rfl, rfl⟩

/-- Claim C7: an equality check of an instance of either variant against any
non-gate value returns false (the comparison is a total Boolean function, so
it cannot raise). -/
theorem eq_against_nongate_is_false {α : Type} (g : CZSWAPGate) (g2 : CXSWAPGate) (a : α) :
    valueEq (PyObject.czswapGate g) (PyObject.nonGate a) = false ∧
    valueEq (PyObject.cxswapGate g2) (PyObject.nonGate a) = false :=
  ⟨rfl, rfl⟩

/-- Claim C6: for every qubit-argument sequence whose length is not 2, running
the decomposition of either variant signals the unpack error to the caller
and produces no partial list of sub-operations, for any positive amount of
fuel. -/
theorem decompose_arity_violation_errors {Q : Type} (g : CZSWAPGate) (g2 : CXSWAPGate)
    (qs : List Q) (h : qs.length ≠ 2) (n : Nat) :
    genRun CZSWAPGate.decomposeNext (n + 1) (CZSWAPGate.decompose_ g qs) =
      Except.error DecomposeError.unpackMismatch ∧
    genRun CXSWAPGate.decomposeNext (n + 1) (CXSWAPGate.decompose_ g2 qs) =
      Except.error DecomposeError.unpackMismatch := by
  rcases qs with _ | ⟨a, _ | ⟨b, _ | ⟨c, t⟩⟩⟩
  · exact ⟨rfl, rfl⟩
  · exact ⟨rfl, rfl⟩
  · exact absurd rfl h
  · exact ⟨rfl, rfl⟩

/-- Claim C6 witness at the concrete one-element argument sequence [5]. -/
theorem decompose_arity_violation_errors_witness :
    [(5 : ℕ)].length ≠ 2 ∧
    (genRun CZSWAPGate.decomposeNext 1 (CZSWAPGate.decompose_ ⟨0⟩ [(5 : ℕ)]) =
      Except.error DecomposeError.unpackMismatch ∧
    genRun CXSWAPGate.decomposeNext 1 (CXSWAPGate.decompose_ ⟨0⟩ [(5 : ℕ)]) =
      Except.error DecomposeError.unpackMismatch) :=
  ⟨by decide, decompose_arity_violation_errors ⟨0⟩ ⟨0⟩ [(5 : ℕ)] (by decide) 0⟩

/-- Claim C9: for each variant, `__repr__` returns a canonical
constructor-call string, and evaluating that string with the framework's
constructors yields an instance equal to the original. -/
theorem repr_round_trip {α : Type} (g : CZSWAPGate) (g2 : CXSWAPGate) :
    (∃ g3 : CZSWAPGate,
      evalConstructorString (CZSWAPGate.repr_ g) = some (PyObject.czswapGate g3 : PyObject α) ∧
      valueEq (PyObject.czswapGate g3) (PyObject.czswapGate g : PyObject α) = true) ∧
    (∃ g4 : CXSWAPGate,
      evalConstructorString (CXSWAPGate.repr_ g2) = some (PyObject.cxswapGate g4 : PyObject α) ∧
      valueEq (PyObject.cxswapGate g4) (PyObject.cxswapGate g2 : PyObject α) = true) := by
  refine ⟨⟨⟨0⟩, ?_, rfl⟩, ⟨⟨0⟩, ?_, rfl⟩⟩
  · simp [evalConstructorString, CZSWAPGate.repr_]
  · simp [evalConstructorString, CXSWAPGate.repr_]

/-- Claim C10: calling `_decompose_` with a qubit-argument sequence of the
wrong length does not raise at call time — the call returns a generator
object — and the unpack error surfaces on the first `next` request, before
any sub-operation is yielded. -/
theorem decompose_lazy_arity_error_at_first_next {Q : Type} (g : CZSWAPGate)
    (g2 : CXSWAPGate) (qs : List Q) (h : qs.length ≠ 2) :
    CZSWAPGate.decompose_ g qs = GenState.start qs ∧
    CXSWAPGate.decompose_ g2 qs = GenState.start qs ∧
    CZSWAPGate.decomposeNext (GenState.start qs) =
      Except.error DecomposeError.unpackMismatch ∧
    CXSWAPGate.decomposeNext (GenState.start qs) =
      Except.error DecomposeError.unpackMismatch := by
  refine ⟨rfl, rfl, ?_, ?_⟩ <;>
  · rcases qs with _ | ⟨a, _ | ⟨b, _ | ⟨c, t⟩⟩⟩
    · rfl
    · rfl
    · exact absurd rfl h
    · rfl

/-- Claim C10 witness at the concrete empty argument sequence. -/
theorem decompose_lazy_arity_error_at_first_next_witness :
    ([] : List ℕ).length ≠ 2 ∧
    (CZSWAPGate.decompose_ ⟨0⟩ ([] : List ℕ) = GenState.start [] ∧
    CXSWAPGate.decompose_ ⟨0⟩ ([] : List ℕ) = GenState.start [] ∧
    CZSWAPGate.decomposeNext (GenState.start ([] : List ℕ)) =
      Except.error DecomposeError.unpackMismatch ∧
    CXSWAPGate.decomposeNext (GenState.start ([] : List ℕ)) =
      Except.error DecomposeError.unpackMismatch) :=
  ⟨by decide, decompose_lazy_arity_error_at_first_next ⟨0⟩ ⟨0⟩ ([] : List ℕ) (by decide)⟩
